import Mathlib

/-!
Verification development for the session-multiplexer core of a Telegram
coding-assistant bot.  The definitions below are a shallow embedding of
`src/claude/persistent.py` (the `PersistentClaudeManager` and its
`PersistentSession` records), `src/storage/session_storage.py` (the durable
active-session pointer table), and the session-restore branch of
`src/bot/handlers/command.py` (`continue_session`).

Modelling conventions:
- JSON values are the inductive `J`; Python `dict.get(k, d)` becomes an
  association-list lookup with a default.
- Machine state mutated in place by the Python code is passed explicitly as
  `MgrState`; a subprocess handle is reduced to its pid and its
  `returncode : Option Int` (`none` = still running).
- Killed pids are accumulated in `MgrState.killed` so that theorems can
  speak about which processes a transition killed.
- Fallible extraction from JSON (Python raising `AttributeError` or
  `TypeError` on malformed values) is `Option`.
-/

namespace TgClaude

/-- JSON values as decoded by `json.loads`.  Objects are association lists
(Python dicts preserve insertion order; keys are unique). -/
inductive J where
  | null : J
  | jbool : Bool → J
  | num : ℚ → J
  | str : String → J
  | arr : List J → J
  | obj : List (String × J) → J

/-- Association-list lookup, first match: Python `dict[k]` / `dict.get(k)`. -/
def assocFind {α β : Type} [DecidableEq α] : List (α × β) → α → Option β
  | [], _ => none
  | kv :: rest, k => if kv.1 = k then some kv.2 else assocFind rest k

/-- Python `dict[k] = v`: replace the entry in place if the key is present
(dict keys are unique, so the first match is the only one), otherwise append
(insertion order is preserved). -/
def assocSet {α β : Type} [DecidableEq α] : List (α × β) → α → β →
    List (α × β)
  | [], k, v => [(k, v)]
  | kv :: rest, k, v =>
      if kv.1 = k then (k, v) :: rest else kv :: assocSet rest k v

/-- Python `del dict[k]`. -/
def assocRemove {α β : Type} [DecidableEq α] (l : List (α × β)) (k : α) :
    List (α × β) :=
  l.filter (fun kv => !(decide (kv.1 = k)))

/-- Python `dict.get(k)`: `none` stands for the `None` default. -/
def jGet (o : List (String × J)) (k : String) : Option J := assocFind o k

/-- Python `dict.get(k, d)`. -/
def jGetD (o : List (String × J)) (k : String) (d : J) : J := (jGet o k).getD d

/-- Python truthiness of a JSON value. -/
def jTruthy : J → Bool
  | .null => false
  | .jbool b => b
  | .num q => !(decide (q = 0))
  | .str s => !(decide (s = ""))
  | .arr xs => !xs.isEmpty
  | .obj fs => !fs.isEmpty

/-- Test that a JSON value is a given string (Python `x == "lit"`). -/
def jIsStr (j : J) (s : String) : Bool :=
  match j with
  | .str v => decide (v = s)
  | _ => false

/-- Coerce an optional JSON value to a number, with a default for absence;
a present non-number is a dynamic type error (Python would raise), hence
`none`. -/
def asNumOr (j : Option J) (d : ℚ) : Option ℚ :=
  match j with
  | none => some d
  | some (.num q) => some q
  | some _ => none

/-- Coerce an optional JSON value to a string, with a default for absence. -/
def asStrOr (j : Option J) (d : String) : Option String :=
  match j with
  | none => some d
  | some (.str s) => some s
  | some _ => none

/-- Coerce an optional JSON value to a boolean, with a default for absence. -/
def asBoolOr (j : Option J) (d : Bool) : Option Bool :=
  match j with
  | none => some d
  | some (.jbool b) => some b
  | some _ => none

/-- Coerce a JSON value to an object's field list; `none` models Python
raising `AttributeError` when calling `.get` on a non-dict. -/
def asObj : J → Option (List (String × J))
  | .obj fs => some fs
  | _ => none

end TgClaude

namespace TgClaude

/-!
RecoveryStore: the `user_active_sessions` table of
`src/storage/session_storage.py`.  One row per pointer.
-/

/-- One row of `user_active_sessions` (`SQLiteSessionStorage`); `thread_id`
is a nullable column, `none` = SQL NULL. -/
structure PointerRow where
  user_id : ℕ
  thread_id : Option ℕ
  session_id : String
  project_path : String
deriving DecidableEq

/-- SQL `COALESCE(thread_id, 0)`, the expression in the table's unique index
and in the upsert's `ON CONFLICT` target. -/
def coalesce0 : Option ℕ → ℕ
  | none => 0
  | some x => x

/-- Whether an insert of key `(u, t)` conflicts with row `r` under the unique
index on `(user_id, COALESCE(thread_id, 0))`. -/
def rowConflicts (u : ℕ) (t : Option ℕ) (r : PointerRow) : Bool :=
  decide (r.user_id = u) && decide (coalesce0 r.thread_id = coalesce0 t)

/-- Modelled from the spec: the schema file declaring `user_active_sessions`
is not in `src/`; per the spec the table is "uniquely keyed on
`(user_id, coalesce(thread_id, sentinel))`", matching the statement's own
`ON CONFLICT(user_id, COALESCE(thread_id, 0))` target in
`SQLiteSessionStorage.set_user_active_session`.  The upsert inserts a new
row, or — when a row conflicts under that expression index — updates the
conflicting row's `session_id`, `project_path` (and timestamp), leaving the
stored `thread_id` unchanged, exactly as
`ON CONFLICT ... DO UPDATE SET session_id = excluded.session_id, ...`. -/
def setActive (tbl : List PointerRow) (u : ℕ) (t : Option ℕ)
    (sid path : String) : List PointerRow :=
  if tbl.any (rowConflicts u t) then
    tbl.map (fun r =>
      if rowConflicts u t r then
        { r with session_id := sid, project_path := path }
      else r)
  else tbl ++ [{ user_id := u, thread_id := t, session_id := sid, project_path := path }]

/-- `SQLiteSessionStorage.get_user_active_session`: a `SELECT` with
`thread_id IS NULL` when the argument is `None`, and `thread_id = ?`
otherwise; returns `(session_id, project_path)` of the first matching row. -/
def getActive (tbl : List PointerRow) (u : ℕ) (t : Option ℕ) :
    Option (String × String) :=
  match tbl.find? (fun r =>
      decide (r.user_id = u) &&
        match t with
        | none => r.thread_id.isNone
        | some x => decide (r.thread_id = some x)) with
  | some r => some (r.session_id, r.project_path)
  | none => none

/-- `SQLiteSessionStorage.clear_user_active_session`: `DELETE` with the same
NULL-aware `WHERE` clause as `getActive`. -/
def clearActive (tbl : List PointerRow) (u : ℕ) (t : Option ℕ) :
    List PointerRow :=
  tbl.filter (fun r =>
    !(decide (r.user_id = u) &&
        match t with
        | none => r.thread_id.isNone
        | some x => decide (r.thread_id = some x)))

end TgClaude

namespace TgClaude

/-!
SessionMultiplexer: `PersistentClaudeManager` of `src/claude/persistent.py`.
-/

/-- A session key `(user_id, thread_id)`; `thread_id = none` is the
non-threaded chat (`PersistentClaudeManager._session_key`). -/
def SessionKey : Type := ℕ × Option ℕ

instance : DecidableEq SessionKey := instDecidableEqProd

/-- `PersistentSession` of `src/claude/persistent.py`.  The `process` handle
is reduced to its `pid` plus `returncode` (`none` = alive); the
`asyncio.Lock` is not part of this sequential state (claim C9 models the
event-loop interleaving separately). -/
structure Session where
  pid : ℕ
  returncode : Option Int
  session_id : Option String
  working_directory : String
  user_id : ℕ
  thread_id : Option ℕ
  context_tokens_used : ℚ
  context_tokens_max : ℚ
  total_cost : ℚ
  message_count : ℕ
deriving DecidableEq

/-- The manager's mutable state: `self.sessions` (a dict keyed by
`(user_id, thread_id)`) plus a pid allocator for newly launched subprocesses
and the accumulating list of pids the manager has killed (newest first), so
that theorems can observe kill side effects. -/
structure MgrState where
  sessions : List (SessionKey × Session)
  nextPid : ℕ
  killed : List ℕ
deriving DecidableEq

/-- `PersistentClaudeManager.kill_session`: if the key is registered, kill the
entry's process and delete the entry; a no-op when the key is absent. -/
def killSession (st : MgrState) (user_id : ℕ) (thread_id : Option ℕ) : MgrState :=
  match assocFind st.sessions (user_id, thread_id) with
  | none => st
  | some s =>
      { st with
        sessions := assocRemove st.sessions (user_id, thread_id),
        killed := s.pid :: st.killed }

/-- The tail of `PersistentClaudeManager.get_or_create_session`: launch a new
subprocess in `working_directory` (`_start_persistent_process`, passing the
desired session id as a `--resume` argument when present), build a fresh
`PersistentSession` with zeroed counters, and register it under the key
(replacing any previous entry). -/
def createAndRegister (st : MgrState) (user_id : ℕ) (working_directory : String)
    (session_id : Option String) (thread_id : Option ℕ) : Session × MgrState :=
  let s : Session :=
    { pid := st.nextPid, returncode := none, session_id := session_id,
      working_directory := working_directory, user_id := user_id,
      thread_id := thread_id, context_tokens_used := 0,
      context_tokens_max := 0, total_cost := 0, message_count := 0 }
  (s, { st with
          nextPid := st.nextPid + 1,
          sessions := assocSet st.sessions (user_id, thread_id) s })

/-- Python `session_id and session.session_id != session_id` in
`get_or_create_session`: the desired id is truthy (present and non-empty)
and differs from the entry's current id. -/
def sidWantsDifferent (desired current : Option String) : Bool :=
  match desired with
  | none => false
  | some v => !(decide (v = "")) && !(decide (current = some v))

/-- `PersistentClaudeManager.get_or_create_session`: reuse a live entry whose
working directory matches and whose session id is not being changed;
kill-and-replace on a directory or session-id change; silently drop a dead
entry and replace it; create and register when no entry exists. -/
def getOrCreate (st : MgrState) (user_id : ℕ) (working_directory : String)
    (session_id : Option String) (thread_id : Option ℕ) : Session × MgrState :=
  match assocFind st.sessions (user_id, thread_id) with
  | some s =>
      if s.returncode = none then
        if s.working_directory ≠ working_directory then
          createAndRegister (killSession st user_id thread_id) user_id
            working_directory session_id thread_id
        else if sidWantsDifferent session_id s.session_id then
          createAndRegister (killSession st user_id thread_id) user_id
            working_directory session_id thread_id
        else (s, st)
      else
        createAndRegister
          { st with sessions := assocRemove st.sessions (user_id, thread_id) }
          user_id working_directory session_id thread_id
  | none =>
      createAndRegister st user_id working_directory session_id thread_id

/-- `PersistentClaudeManager.interrupt_session`: `false` when the key is
absent or the process is dead (no state change in either case); otherwise
send SIGINT to the process (the third component lists the delivered
signals' target pids) and return `true` without touching the directory. -/
def interruptSession (st : MgrState) (user_id : ℕ) (thread_id : Option ℕ) :
    Bool × MgrState × List ℕ :=
  match assocFind st.sessions (user_id, thread_id) with
  | none => (false, st, [])
  | some s =>
      if s.returncode ≠ none then (false, st, [])
      else (true, st, [s.pid])

/-- The dict returned by `PersistentClaudeManager.get_session_status`. -/
structure SessionStatus where
  session_id : Option String
  context_tokens_used : ℚ
  context_tokens_max : ℚ
  context_percentage : ℚ
  total_cost : ℚ
  message_count : ℕ
  working_directory : String
  process_alive : Bool
  thread_id : Option ℕ
deriving DecidableEq

/-- `PersistentClaudeManager.get_session_status`: `none` when the key is
absent or the process is dead; the percentage starts at 0 and the division
is performed only under the `context_tokens_max > 0` guard. -/
def getSessionStatus (st : MgrState) (user_id : ℕ) (thread_id : Option ℕ) :
    Option SessionStatus :=
  match assocFind st.sessions (user_id, thread_id) with
  | none => none
  | some s =>
      if s.returncode ≠ none then none
      else
        some
          { session_id := s.session_id,
            context_tokens_used := s.context_tokens_used,
            context_tokens_max := s.context_tokens_max,
            context_percentage :=
              if s.context_tokens_max > 0 then
                s.context_tokens_used / s.context_tokens_max * 100
              else 0,
            total_cost := s.total_cost,
            message_count := s.message_count,
            working_directory := s.working_directory,
            process_alive := decide (s.returncode = none),
            thread_id := s.thread_id }

/-- One element of the list built by
`PersistentClaudeManager.get_all_sessions_info`. -/
structure SessionInfo where
  user_id : ℕ
  thread_id : Option ℕ
  session_id : Option String
  context_percentage : ℚ
  message_count : ℕ
  working_directory : String
deriving DecidableEq

/-- The dict appended per live entry in `get_all_sessions_info`; the same
guarded percentage computation as in `get_session_status`. -/
def mkInfo (k : SessionKey) (s : Session) : SessionInfo :=
  { user_id := k.1,
    thread_id := k.2,
    session_id := s.session_id,
    context_percentage :=
      if s.context_tokens_max > 0 then
        s.context_tokens_used / s.context_tokens_max * 100
      else 0,
    message_count := s.message_count,
    working_directory := s.working_directory }

/-- `PersistentClaudeManager.get_all_sessions_info`: skip entries whose
process has exited, emit one info dict per remaining entry. -/
def getAllSessionsInfo (st : MgrState) : List SessionInfo :=
  (st.sessions.filter (fun ks => ks.2.returncode.isNone)).map
    (fun ks => mkInfo ks.1 ks.2)

/-!
The exchange read loop: `PersistentClaudeManager._read_response` and the
counter update it performs when the terminal `result` event arrives.
-/

/-- The `ClaudeResponse` built at the end of `_read_response`
(`tools_used` is always left empty by this code path). -/
structure ClaudeResponse where
  content : String
  session_id : String
  cost : ℚ
  duration_ms : ℚ
  num_turns : ℚ
  is_error : Bool
  tools_used : List String
  context_tokens_used : ℚ
  context_tokens_max : ℚ
deriving DecidableEq

/-- Token extraction from a `result` event (`_read_response` lines 253-262):
`context_window = result.get("context_window", {})`,
`current_usage = context_window.get("current_usage") or {}`, then the sum of
`input_tokens`, `cache_creation_input_tokens` and
`cache_read_input_tokens`, each defaulting to 0.  `none` models a dynamic
type error on malformed values. -/
def tokensUsed (result : List (String × J)) : Option ℚ :=
  match asObj (jGetD result "context_window" (.obj [])) with
  | none => none
  | some cw =>
      let cuVal := jGetD cw "current_usage" .null
      match asObj (if jTruthy cuVal then cuVal else .obj []) with
      | none => none
      | some cu =>
          match asNumOr (jGet cu "input_tokens") 0,
              asNumOr (jGet cu "cache_creation_input_tokens") 0,
              asNumOr (jGet cu "cache_read_input_tokens") 0 with
          | some a, some b, some c => some (a + b + c)
          | _, _, _ => none

/-- `context_tokens_max = context_window.get("context_window_size", 200000)`
with the same `result.get("context_window", {})` base. -/
def tokensMax (result : List (String × J)) : Option ℚ :=
  match asObj (jGetD result "context_window" (.obj [])) with
  | none => none
  | some cw => asNumOr (jGet cw "context_window_size") 200000

/-- The tail of `_read_response` once a `result` message has been read:
compute the context-window numbers and the cost, overwrite the session's
`context_tokens_used` / `context_tokens_max` with the fresh snapshot, add
the cost to `total_cost`, bump `message_count`, and build the
`ClaudeResponse`.  `none` models an uncaught dynamic type error. -/
def processResult (s : Session) (result : List (String × J)) :
    Option (ClaudeResponse × Session) :=
  match tokensUsed result, tokensMax result,
      asNumOr (jGet result "cost_usd") 0,
      asStrOr (jGet result "result") "",
      asStrOr (jGet result "session_id") (s.session_id.getD ""),
      asNumOr (jGet result "duration_ms") 0,
      asNumOr (jGet result "num_turns") 0,
      asBoolOr (jGet result "is_error") false with
  | some used, some maxv, some cost, some content, some sid, some dur,
      some turns, some isErr =>
      some
        ({ content := content, session_id := sid, cost := cost,
           duration_ms := dur, num_turns := turns, is_error := isErr,
           tools_used := [], context_tokens_used := used,
           context_tokens_max := maxv },
         { s with
             context_tokens_used := used,
             context_tokens_max := maxv,
             total_cost := s.total_cost + cost,
             message_count := s.message_count + 1 })
  | _, _, _, _, _, _, _, _ => none

/-- The session-id update performed on every decoded message
(`if msg.get("session_id") and not session.session_id`): assign the
message's id when it is a truthy (non-empty) string and the session does not
yet have a truthy id.  Wire session ids are strings, so the model only
stores string values. -/
def updateSessionId (s : Session) (m : List (String × J)) : Session :=
  match jGet m "session_id" with
  | some (.str v) =>
      if !(decide (v = "")) &&
          !(match s.session_id with
            | none => false
            | some cur => !(decide (cur = ""))) then
        { s with session_id := some v }
      else s
  | _ => s

/-- One `readline` outcome observed by `_read_response`: a timeout of the
`asyncio.wait_for` wrapper, a blank line, a line that is not valid JSON
(logged and skipped), or a decoded JSON object.  An exhausted list models
end-of-stream (`readline` returning empty bytes). -/
inductive ReadItem where
  | readTimeout : ReadItem
  | blankLine : ReadItem
  | invalidJson : ReadItem
  | msgLine : List (String × J) → ReadItem

/-- Outcome of one exchange's read phase: a terminal result was decoded, the
stream ended without one (`Exception("No result received from Claude")`),
`asyncio.TimeoutError`, or an uncaught dynamic error while decoding the
result's fields. -/
inductive ReadResult where
  | ok : ClaudeResponse → ReadResult
  | noResult : ReadResult
  | timedOut : ReadResult
  | crashed : ReadResult
deriving DecidableEq

/-- The read loop of `_read_response` acting on the session record: skip
blank and malformed lines, perform the session-id update on every decoded
message, stop at the first message whose `type` is `"result"` and apply
`processResult` to it; end-of-stream without a result is `noResult`, a
timeout aborts immediately. -/
def readLoop (s : Session) : List ReadItem → ReadResult × Session
  | [] => (.noResult, s)
  | .readTimeout :: _ => (.timedOut, s)
  | .blankLine :: rest => readLoop s rest
  | .invalidJson :: rest => readLoop s rest
  | .msgLine m :: rest =>
      let s1 := updateSessionId s m
      if jIsStr (jGetD m "type" .null) "result" then
        match processResult s1 m with
        | none => (.crashed, s1)
        | some (resp, s2) => (.ok resp, s2)
      else readLoop s1 rest

/-- Replace the session stored under a key, when present (the Python session
object is aliased by the dict entry, so its in-place mutations are visible
through `self.sessions`). -/
def writeBack : List (SessionKey × Session) → SessionKey → Session →
    List (SessionKey × Session)
  | [], _, _ => []
  | kv :: rest, k, s => (if kv.1 = k then (k, s) else kv) :: writeBack rest k s

/-- `_read_response` at the manager level: run the read loop for the session;
on `asyncio.TimeoutError` kill and remove the session
(`await self.kill_session(...)`) before the error propagates; on every other
outcome the directory keeps its entries, with the session's in-place field
updates visible under its key. -/
def readResponse (st : MgrState) (s : Session) (stream : List ReadItem) :
    ReadResult × MgrState :=
  match readLoop s stream with
  | (.timedOut, _) => (.timedOut, killSession st s.user_id s.thread_id)
  | (r, s') =>
      (r, { st with sessions := writeBack st.sessions (s.user_id, s.thread_id) s' })

/-!
Session resume: the pointer-restore branch of `continue_session` in
`src/bot/handlers/command.py` (lines 169-199).
-/

/-- Python `s.startswith(p)` on path strings. -/
def pyStartswith (s p : String) : Bool := p.data.isPrefixOf s.data

/-- The restore branch of `continue_session`: given the approved (sandbox
root) directory, the caller's current default directory, the durable pointer
`(session_id, project_path)` if one was found, and the filesystem's
`Path.exists` predicate, produce the restored session id and the working
directory the handler continues with.  Paths are taken as already resolved
(`Path.resolve` is the identity on canonical absolute paths), so the code's
check is `stored_dir.exists() and str(stored_dir).startswith(str(approved))`. -/
def restoreFromPointer (approved default_dir : String)
    (pointer : Option (String × String)) (existsOnDisk : String → Bool) :
    Option String × String :=
  match pointer with
  | none => (none, default_dir)
  | some (sid, path) =>
      (some sid,
        if existsOnDisk path && pyStartswith path approved then path
        else default_dir)

/-- Modelled from the spec's words for comparison: a path is inside the
sandbox root when it is the root itself or a path-component descendant of
it (the claim's "never set to a path outside the sandbox root"). -/
def withinSandboxRoot (root p : String) : Bool :=
  decide (p = root) || pyStartswith p (root ++ "/")

/-!
Concurrent session creation, for claim C9.  The model below replays two
concurrent `send_message` calls for the same fresh key on the cooperative
event loop.  Each task's code between `await` suspension points is one
atomic step:
- pc 0: `get_or_create_session` up to the `await create_subprocess_exec`
  inside `_start_persistent_process` — the membership check
  `if key in self.sessions` runs here; a hit would hand back the registered
  pid (the task would then serialize on that session's lock), a miss starts
  the subprocess launch and suspends;
- pc 1: the launch `await` completes — the subprocess now exists (a fresh
  pid, alive), the task builds its `PersistentSession` and executes
  `self.sessions[key] = session`, then proceeds into its own session's
  exchange;
- pc 2: past registration (exchanging against `myPid`).
-/

namespace SpawnRace

/-- The single session key both concurrent callers target. -/
def key : TgClaude.SessionKey := (1, none)

/-- Shared manager state seen by both tasks: the directory (key to pid), the
pid allocator, the set of live (spawned, never killed) processes, and how
many subprocesses have been spawned for `key`. -/
structure Shared where
  sessions : List (TgClaude.SessionKey × ℕ)
  nextPid : ℕ
  livePids : List ℕ
  spawnCount : ℕ
deriving DecidableEq

/-- One caller's coroutine state: its program counter and, once known, the
pid of the session object its exchange will use. -/
structure Task where
  pc : ℕ
  myPid : Option ℕ
deriving DecidableEq

/-- Run one task's next atomic step against the shared state. -/
def stepTask (sh : Shared) (tk : Task) : Shared × Task :=
  if tk.pc = 0 then
    match TgClaude.assocFind sh.sessions key with
    | some pid => (sh, { pc := 2, myPid := some pid })
    | none => (sh, { pc := 1, myPid := none })
  else if tk.pc = 1 then
    let pid := sh.nextPid
    ({ sessions := TgClaude.assocSet sh.sessions key pid,
       nextPid := pid + 1,
       livePids := pid :: sh.livePids,
       spawnCount := sh.spawnCount + 1 },
     { pc := 2, myPid := some pid })
  else (sh, tk)

/-- Run a schedule: `false` steps task 0, `true` steps task 1. -/
def runSched : Shared × Task × Task → List Bool → Shared × Task × Task
  | s, [] => s
  | (sh, t0, t1), b :: rest =>
      if b then
        let p := stepTask sh t1
        runSched (p.1, t0, p.2) rest
      else
        let p := stepTask sh t0
        runSched (p.1, p.2, t1) rest

/-- Empty directory, both callers about to enter `send_message`. -/
def init : Shared × Task × Task :=
  ({ sessions := [], nextPid := 0, livePids := [], spawnCount := 0 },
   { pc := 0, myPid := none }, { pc := 0, myPid := none })

/-- The interleaving in which both callers pass the `key in self.sessions`
check before either registers: each then completes its own subprocess
launch and registration. -/
def raceTrace : List Bool := [false, true, false, true]

end SpawnRace

/-- Claim C1: the absent-thread pointer and the thread-id-zero pointer for the
same user are distinct rows that never overwrite each other.  This theorem
evaluates the store at the claim's own input and shows the opposite: because
the unique index coalesces NULL to 0, the second upsert updates the first
row in place (in either order), so one of the two `get_active` lookups
afterwards returns the other write's data and the other returns nothing. -/
theorem c1_set_active_coalesce_merges :
    (getActive (setActive (setActive [] 7 none "s1" "/a") 7 (some 0) "s2" "/b") 7 none
        = some ("s2", "/b")
      ∧ getActive (setActive (setActive [] 7 none "s1" "/a") 7 (some 0) "s2" "/b") 7 (some 0)
        = none)
    ∧ (getActive (setActive (setActive [] 7 (some 0) "s2" "/b") 7 none "s1" "/a") 7 (some 0)
        = some ("s1", "/a")
      ∧ getActive (setActive (setActive [] 7 (some 0) "s2" "/b") 7 none "s1" "/a") 7 none
        = none) := by
  decide

/-- Claim C4: a resumed session's working directory is never set to a path
outside the sandbox root.  This theorem evaluates the restore branch at a
concrete input refuting that: with sandbox root `/a` and an existing stored
directory `/ab`, the code's `startswith` string check accepts `/ab`
(it shares the character prefix `/a`) and the handler continues in `/ab`,
which is not inside the root `/a`; the pointer's session id is kept. -/
theorem c4_restore_escapes_sandbox :
    restoreFromPointer "/a" "/a" (some ("sid1", "/ab")) (fun _ => true)
        = (some "sid1", "/ab")
      ∧ withinSandboxRoot "/a" "/ab" = false := by
  constructor
  · rfl
  · decide

/-- Claim C9: a second concurrent send for the same key waits on the exchange
mutex and never spawns a second process for the key.  This theorem runs the
two-caller interleaving in which both pass the `key in self.sessions`
membership check before either registers: two subprocesses are spawned for
the key, both are left alive (pids 0 and 1), the directory ends up holding
pid 1, and caller 0 proceeds to exchange against the no-longer-registered
pid 0 — no caller ever waited on the other's mutex. -/
theorem c9_concurrent_create_spawns_twice :
    (SpawnRace.runSched SpawnRace.init SpawnRace.raceTrace).1.spawnCount = 2
      ∧ (SpawnRace.runSched SpawnRace.init SpawnRace.raceTrace).1.livePids = [1, 0]
      ∧ assocFind (SpawnRace.runSched SpawnRace.init SpawnRace.raceTrace).1.sessions
          SpawnRace.key = some 1
      ∧ (SpawnRace.runSched SpawnRace.init SpawnRace.raceTrace).2.1.myPid = some 0
      ∧ (SpawnRace.runSched SpawnRace.init SpawnRace.raceTrace).2.2.myPid = some 1 := by
  decide

/-- Claim C8: `interrupt_session` is a pure no-op returning `false` on a key
with no live process (absent key or dead process), never an error and never
a state change, and on a live process it sends the signal, returns `true`
and leaves the directory untouched. -/
theorem c8_interrupt_no_op_or_signal (st : MgrState) (u : ℕ) (t : Option ℕ) :
    (assocFind st.sessions (u, t) = none →
        interruptSession st u t = (false, st, []))
    ∧ (∀ s, assocFind st.sessions (u, t) = some s → s.returncode ≠ none →
        interruptSession st u t = (false, st, []))
    ∧ (∀ s, assocFind st.sessions (u, t) = some s → s.returncode = none →
        interruptSession st u t = (true, st, [s.pid])) := by
  refine ⟨fun h => ?_, fun s h hrc => ?_, fun s h hrc => ?_⟩
  · simp [interruptSession, h]
  · simp [interruptSession, h, hrc]
  · simp [interruptSession, h, hrc]

/-- A live session under key `(1, none)` used as a concrete interrupt
target. -/
def w8s : Session :=
  { pid := 3, returncode := none, session_id := some "abc",
    working_directory := "/w", user_id := 1, thread_id := none,
    context_tokens_used := 0, context_tokens_max := 0, total_cost := 0,
    message_count := 0 }

/-- A directory holding only `w8s`. -/
def w8st : MgrState := { sessions := [((1, none), w8s)], nextPid := 4, killed := [] }

/-- Concrete instance of the interrupt contract: signalling the live session
returns `true` with one SIGINT and no state change; an unknown key returns
`false` with no signal. -/
theorem c8_witness :
    interruptSession w8st 1 none = (true, w8st, [3])
      ∧ interruptSession w8st 2 none = (false, w8st, []) :=
  ⟨(c8_interrupt_no_op_or_signal w8st 1 none).2.2 w8s (by decide) rfl,
   (c8_interrupt_no_op_or_signal w8st 2 none).1 (by decide)⟩

/-- Helper: every element of `get_all_sessions_info`'s output is `mkInfo` of
some live directory entry. -/
theorem info_mem_structure (st : MgrState) (i : SessionInfo)
    (hi : i ∈ getAllSessionsInfo st) :
    ∃ ks : SessionKey × Session, ks ∈ st.sessions ∧ ks.2.returncode = none
      ∧ i = mkInfo ks.1 ks.2 := by
  unfold getAllSessionsInfo at hi
  obtain ⟨ks, hks, hmk⟩ := List.mem_map.mp hi
  obtain ⟨hmem, hrc⟩ := List.mem_filter.mp hks
  exact ⟨ks, hmem, Option.isNone_iff_eq_none.mp hrc, hmk.symm⟩

/-- Claim C10: the context-percentage computation is guarded: a zero
`context_tokens_max` yields percentage 0, both in the single-key status
snapshot and for every entry of the enumerate-all snapshot. -/
theorem c10_percentage_guarded (st : MgrState) (u : ℕ) (t : Option ℕ) :
    (∀ r, getSessionStatus st u t = some r → r.context_tokens_max = 0 →
        r.context_percentage = 0)
    ∧ (∀ i, i ∈ getAllSessionsInfo st →
        ∃ ks : SessionKey × Session, ks ∈ st.sessions
          ∧ ks.2.returncode = none ∧ i = mkInfo ks.1 ks.2
          ∧ (ks.2.context_tokens_max = 0 → i.context_percentage = 0)) := by
  constructor
  · intro r hr hmax
    cases h : assocFind st.sessions (u, t) with
    | none => simp [getSessionStatus, h] at hr
    | some s =>
        by_cases hrc : s.returncode ≠ none
        · simp [getSessionStatus, h, hrc] at hr
        · simp only [getSessionStatus, h] at hr
          rw [if_neg hrc] at hr
          have he := Option.some.inj hr
          subst he
          have hmax' : s.context_tokens_max = 0 := hmax
          show (if s.context_tokens_max > 0 then
              s.context_tokens_used / s.context_tokens_max * 100 else 0) = 0
          rw [hmax']
          norm_num
  · intro i hi
    obtain ⟨ks, hmem, hrc, hmk⟩ := info_mem_structure st i hi
    refine ⟨ks, hmem, hrc, hmk, fun hmax => ?_⟩
    rw [hmk]
    simp [mkInfo, hmax]

/-- A live session with a zero token maximum. -/
def w10s : Session :=
  { pid := 0, returncode := none, session_id := none,
    working_directory := "/w", user_id := 1, thread_id := none,
    context_tokens_used := 5, context_tokens_max := 0, total_cost := 0,
    message_count := 1 }

/-- A directory holding only `w10s`. -/
def w10st : MgrState :=
  { sessions := [((1, none), w10s)], nextPid := 1, killed := [] }

/-- The status record `get_session_status` reports for `w10s`. -/
def w10r : SessionStatus :=
  { session_id := none, context_tokens_used := 5, context_tokens_max := 0,
    context_percentage := 0, total_cost := 0, message_count := 1,
    working_directory := "/w", process_alive := true, thread_id := none }

/-- Concrete instance: the zero-max session's status exists and reports
percentage 0. -/
theorem c10_witness :
    getSessionStatus w10st 1 none = some w10r
      ∧ w10r.context_percentage = 0 :=
  ⟨by decide,
   (c10_percentage_guarded w10st 1 none).1 w10r (by decide) (by decide)⟩

/-- Shape of the `current_usage` block inside a result event's
`context_window`: absent, explicitly `null` (the `or {}` branch), or an
object carrying each of the three token fields optionally. -/
inductive UsageSpec where
  | absentBlock : UsageSpec
  | nullBlock : UsageSpec
  | fieldsPresent : Option ℚ → Option ℚ → Option ℚ → UsageSpec

/-- Shape of the `context_window` block of a result event: absent, or an
object with the usage block and an optional `context_window_size`. -/
inductive CwSpec where
  | absentCw : CwSpec
  | cwPresent : UsageSpec → Option ℚ → CwSpec

/-- Emit a numeric field when present. -/
def optNumField (k : String) : Option ℚ → List (String × J)
  | none => []
  | some q => [(k, .num q)]

/-- The `context_window` entries generated by a usage-block shape. -/
def mkUsageFields : UsageSpec → List (String × J)
  | .absentBlock => []
  | .nullBlock => [("current_usage", .null)]
  | .fieldsPresent i cc cr =>
      [("current_usage",
        .obj (optNumField "input_tokens" i
          ++ optNumField "cache_creation_input_tokens" cc
          ++ optNumField "cache_read_input_tokens" cr))]

/-- A result event of the given context-window shape, as decoded from one
wire line. -/
def mkResultEvent : CwSpec → List (String × J)
  | .absentCw => [("type", .str "result")]
  | .cwPresent u cws =>
      [("type", .str "result"),
       ("context_window", .obj (mkUsageFields u ++ optNumField "context_window_size" cws))]

/-- Modelled from the spec's words, for comparison with the code: the claim's
`tokens_used` is `input_tokens + cache_creation_input_tokens +
cache_read_input_tokens`, each missing field and an absent (or null) usage
block contributing 0. -/
def specTokensUsed : CwSpec → ℚ
  | .absentCw => 0
  | .cwPresent .absentBlock _ => 0
  | .cwPresent .nullBlock _ => 0
  | .cwPresent (.fieldsPresent i cc cr) _ => i.getD 0 + cc.getD 0 + cr.getD 0

/-- Modelled from the spec's words, for comparison with the code: the claim's
`tokens_max` is the reported `context_window_size`, or 200000 when not
reported. -/
def specTokensMax : CwSpec → ℚ
  | .absentCw => 200000
  | .cwPresent _ cws => cws.getD 200000

/-- Claim C7: for every result event, the code's token extraction agrees
with the claimed accounting: `tokens_used` is the sum of the three usage
fields (each absent field, and an absent or null usage block, contributing
0) and `tokens_max` is the reported window size or 200000 by default. -/
theorem c7_token_accounting (spec : CwSpec) :
    tokensUsed (mkResultEvent spec) = some (specTokensUsed spec)
      ∧ tokensMax (mkResultEvent spec) = some (specTokensMax spec) := by
  cases spec with
  | absentCw =>
      constructor <;>
        simp [tokensUsed, tokensMax, mkResultEvent, jGetD, jGet, assocFind,
          asObj, asNumOr, jTruthy, specTokensUsed, specTokensMax]
  | cwPresent u cws =>
      cases u with
      | absentBlock =>
          rcases cws with _ | cws <;> constructor <;>
            simp [tokensUsed, tokensMax, mkResultEvent, mkUsageFields,
              optNumField, jGetD, jGet, assocFind, asObj, asNumOr, jTruthy,
              specTokensUsed, specTokensMax]
      | nullBlock =>
          rcases cws with _ | cws <;> constructor <;>
            simp [tokensUsed, tokensMax, mkResultEvent, mkUsageFields,
              optNumField, jGetD, jGet, assocFind, asObj, asNumOr, jTruthy,
              specTokensUsed, specTokensMax]
      | fieldsPresent i cc cr =>
          rcases i with _ | i <;> rcases cc with _ | cc <;>
            rcases cr with _ | cr <;> rcases cws with _ | cws <;>
            constructor <;>
            simp [tokensUsed, tokensMax, mkResultEvent, mkUsageFields,
              optNumField, jGetD, jGet, assocFind, asObj, asNumOr, jTruthy,
              specTokensUsed, specTokensMax]

/-- A session that has already consumed 100 context tokens. -/
def c2s : Session :=
  { pid := 0, returncode := none, session_id := some "sid1",
    working_directory := "/w", user_id := 1, thread_id := none,
    context_tokens_used := 100, context_tokens_max := 200000,
    total_cost := 0, message_count := 3 }

/-- A terminal result event whose usage snapshot is only 10 tokens. -/
def c2m : List (String × J) :=
  [("type", .str "result"), ("session_id", .str "sid1"),
   ("cost_usd", .num 0),
   ("context_window", .obj [("current_usage", .obj [("input_tokens", .num 10)])])]

/-- The response the code builds for `c2m`. -/
def c2resp : ClaudeResponse :=
  { content := "", session_id := "sid1", cost := 0, duration_ms := 0,
    num_turns := 0, is_error := false, tools_used := [],
    context_tokens_used := 10, context_tokens_max := 200000 }

/-- The session after the exchange: the token counter was overwritten
downward. -/
def c2after : Session :=
  { pid := 0, returncode := none, session_id := some "sid1",
    working_directory := "/w", user_id := 1, thread_id := none,
    context_tokens_used := 10, context_tokens_max := 200000,
    total_cost := 0, message_count := 4 }

/-- Evaluation of the exchange tail at the concrete session and result. -/
theorem c2_eval : processResult c2s c2m = some (c2resp, c2after) := by
  have h1 : tokensUsed c2m = some 10 := by
    simp [tokensUsed, c2m, jGetD, jGet, assocFind, asObj, jTruthy, asNumOr]
  have h2 : tokensMax c2m = some 200000 := by
    simp [tokensMax, c2m, jGetD, jGet, assocFind, asObj, asNumOr]
  have h3 : asNumOr (jGet c2m "cost_usd") 0 = some 0 := by decide
  have h4 : asStrOr (jGet c2m "result") "" = some "" := by decide
  have h5 : asStrOr (jGet c2m "session_id") (c2s.session_id.getD "")
      = some "sid1" := by decide
  have h6 : asNumOr (jGet c2m "duration_ms") 0 = some 0 := by decide
  have h7 : asNumOr (jGet c2m "num_turns") 0 = some 0 := by decide
  have h8 : asBoolOr (jGet c2m "is_error") false = some false := by decide
  unfold processResult
  rw [h1, h2, h3, h4, h5, h6, h7, h8]
  norm_num [c2s, c2resp, c2after]

/-- Claim C2 is false as stated: `context_tokens_used` is overwritten with
the latest snapshot, so a completed exchange whose result reports fewer
tokens than the previous one decrements the counter (here from 100 to 10). -/
theorem c2_counterexample :
    processResult c2s c2m = some (c2resp, c2after)
      ∧ c2after.context_tokens_used < c2s.context_tokens_used :=
  ⟨c2_eval, by norm_num [c2s, c2after]⟩

/-- Claim C2 as amended: after each completed exchange `message_count`
increases by exactly one; `total_cost` increases by the result's reported
cost, hence never decreases when that cost is non-negative; and
`context_tokens_used` / `context_tokens_max` are overwritten with the
result's snapshot values (so they may decrease). -/
theorem c2_counter_update (s : Session) (m : List (String × J))
    (resp : ClaudeResponse) (s' : Session)
    (h : processResult s m = some (resp, s')) :
    s'.message_count = s.message_count + 1
      ∧ tokensUsed m = some s'.context_tokens_used
      ∧ tokensMax m = some s'.context_tokens_max
      ∧ ∃ c, asNumOr (jGet m "cost_usd") 0 = some c
          ∧ s'.total_cost = s.total_cost + c
          ∧ (0 ≤ c → s.total_cost ≤ s'.total_cost) := by
  unfold processResult at h
  split at h
  case _ used maxv cost content sid dur turns isErr hused hmax hcost hcontent
      hsid hdur hturns hisErr =>
    simp only [Option.some.injEq, Prod.mk.injEq] at h
    obtain ⟨hresp, hs'⟩ := h
    subst hs'
    refine ⟨rfl, ?_, ?_, cost, hcost, rfl, fun hc => ?_⟩
    · exact hused
    · exact hmax
    · show s.total_cost ≤ s.total_cost + cost
      linarith
  case _ =>
    exact absurd h (by simp)

/-- Concrete instance of the amended counter contract at the
counterexample's input. -/
theorem c2_witness :
    c2after.message_count = c2s.message_count + 1
      ∧ tokensUsed c2m = some c2after.context_tokens_used
      ∧ c2s.total_cost ≤ c2after.total_cost := by
  have h := c2_counter_update c2s c2m c2resp c2after c2_eval
  obtain ⟨h1, h2, _, c, hc, hadd, hmono⟩ := h
  refine ⟨h1, h2, ?_⟩
  have hc0 : c = 0 := by
    have hv : asNumOr (jGet c2m "cost_usd") 0 = some 0 := by decide
    rw [hv] at hc
    exact (Option.some.inj hc).symm
  exact hmono (by rw [hc0])

/-- Helper: writing a session back under its key preserves which keys are
registered. -/
theorem assocFind_writeBack_isSome (l : List (SessionKey × Session))
    (k0 : SessionKey) (s0 : Session) (k : SessionKey) :
    (assocFind (writeBack l k0 s0) k).isSome = (assocFind l k).isSome := by
  induction l with
  | nil => rfl
  | cons kv rest ih =>
      obtain ⟨k1, v1⟩ := kv
      by_cases h1 : k1 = k0
      · subst h1
        by_cases h2 : k1 = k
        · subst h2
          simp [writeBack, assocFind]
        · simp [writeBack, assocFind, h2, ih]
      · by_cases h2 : k1 = k
        · subst h2
          simp [writeBack, assocFind, h1]
        · simp [writeBack, assocFind, h1, h2, ih]

/-- A session whose process has already exited. -/
def c3dead : Session :=
  { pid := 2, returncode := some 1, session_id := some "sid",
    working_directory := "/w", user_id := 1, thread_id := none,
    context_tokens_used := 0, context_tokens_max := 0, total_cost := 0,
    message_count := 0 }

/-- A directory holding only the dead session. -/
def c3st : MgrState :=
  { sessions := [((1, none), c3dead)], nextPid := 3, killed := [] }

/-- Claim C3 is false as stated: when the stream ends without a terminal
result and the process has already exited, the code raises the no-result
error without touching the directory — the dead session's entry is NOT
removed (it is only evicted later by `get_or_create_session`). -/
theorem c3_counterexample :
    readResponse c3st c3dead [] = (.noResult, c3st)
      ∧ c3dead.returncode ≠ none
      ∧ assocFind c3st.sessions (1, none) = some c3dead := by
  refine ⟨?_, by decide, by decide⟩
  show (ReadResult.noResult,
      { c3st with sessions := writeBack c3st.sessions (1, none) c3dead })
    = (ReadResult.noResult, c3st)
  decide

/-- Claim C3 as amended: when the stream ends before a terminal result the
exchange fails with the no-result error, no process is killed, and the
directory keeps exactly the keys it had — whether or not the session's
process is still alive (a dead entry is only evicted by a later
`get_or_create_session`). -/
theorem c3_noresult_leaves_directory (st : MgrState) (s : Session)
    (stream : List ReadItem) (st' : MgrState)
    (h : readResponse st s stream = (.noResult, st')) :
    st'.killed = st.killed
      ∧ ∀ k : SessionKey,
          (assocFind st'.sessions k).isSome = (assocFind st.sessions k).isSome := by
  unfold readResponse at h
  cases hl : readLoop s stream with
  | mk r s2 =>
      rw [hl] at h
      cases r with
      | timedOut => simp at h
      | ok resp => simp at h
      | crashed => simp at h
      | noResult =>
          simp only [Prod.mk.injEq] at h
          obtain ⟨-, hst⟩ := h
          subst hst
          exact ⟨rfl, fun k => assocFind_writeBack_isSome _ _ _ k⟩

/-- Concrete instance: the end-of-stream failure on the dead session keeps
its key registered and kills nothing. -/
theorem c3_witness :
    (readResponse c3st c3dead []).2.killed = c3st.killed
      ∧ ((assocFind (readResponse c3st c3dead []).2.sessions (1, none)).isSome
          = (assocFind c3st.sessions (1, none)).isSome) := by
  have h := c3_noresult_leaves_directory c3st c3dead []
    (readResponse c3st c3dead []).2 (by decide)
  exact ⟨h.1, h.2 (1, none)⟩

/-- Helper: removing a key removes every binding for it. -/
theorem assocFind_assocRemove_self {α β : Type} [DecidableEq α]
    (l : List (α × β)) (k : α) : assocFind (assocRemove l k) k = none := by
  induction l with
  | nil => rfl
  | cons kv rest ih =>
      by_cases h : kv.1 = k
      · simpa [assocRemove, h] using ih
      · simpa [assocRemove, assocFind, h] using ih

/-- Helper: a key that `assocFind` cannot find has no binding in the list. -/
theorem assocFind_none_not_mem {α β : Type} [DecidableEq α]
    (l : List (α × β)) (k : α) (h : assocFind l k = none) :
    ∀ v, (k, v) ∉ l := by
  induction l with
  | nil => intro v hv; exact absurd hv (List.not_mem_nil _)
  | cons kv rest ih =>
      intro v hv
      by_cases hk : kv.1 = k
      · simp [assocFind, hk] at h
      · rcases List.mem_cons.mp hv with he | hm
        · exact hk (by rw [← he])
        · have hrest : assocFind rest k = none := by
            simpa [assocFind, hk] using h
          exact ih hrest v hm

/-- Claim C5: on exchange timeout the session is forcibly killed and removed
before the error is raised, so afterwards the key is absent from the
directory, from the single-key status lookup and from the enumerate-all
snapshot; when the key was registered, its process's pid was added to the
kill list (and the model's outcome is the timeout error itself — no retry
path exists). -/
theorem c5_timeout_evicts (st : MgrState) (s : Session)
    (stream : List ReadItem) (st' : MgrState)
    (h : readResponse st s stream = (.timedOut, st')) :
    assocFind st'.sessions (s.user_id, s.thread_id) = none
      ∧ getSessionStatus st' s.user_id s.thread_id = none
      ∧ (∀ i, i ∈ getAllSessionsInfo st' →
          ¬(i.user_id = s.user_id ∧ i.thread_id = s.thread_id))
      ∧ (∀ s0, assocFind st.sessions (s.user_id, s.thread_id) = some s0 →
          st'.killed = s0.pid :: st.killed) := by
  unfold readResponse at h
  cases hl : readLoop s stream with
  | mk r s2 =>
      rw [hl] at h
      cases r with
      | ok resp => simp at h
      | noResult => simp at h
      | crashed => simp at h
      | timedOut =>
          simp only [Prod.mk.injEq] at h
          obtain ⟨-, hst⟩ := h
          subst hst
          have hfind :
              assocFind (killSession st s.user_id s.thread_id).sessions
                (s.user_id, s.thread_id) = none := by
            unfold killSession
            cases hf : assocFind st.sessions (s.user_id, s.thread_id) with
            | none => exact hf
            | some s0 => exact assocFind_assocRemove_self _ _
          refine ⟨hfind, ?_, ?_, ?_⟩
          · simp [getSessionStatus, hfind]
          · intro i hi hkey
            obtain ⟨ks, hmem, _, hmk⟩ := info_mem_structure _ i hi
            have hk : ks.1 = (s.user_id, s.thread_id) := by
              have h1 : i.user_id = ks.1.1 := by rw [hmk]; rfl
              have h2 : i.thread_id = ks.1.2 := by rw [hmk]; rfl
              exact Prod.ext (by rw [← h1, hkey.1]) (by rw [← h2, hkey.2])
            exact assocFind_none_not_mem _ _ hfind ks.2 (by
              have : (ks.1, ks.2) ∈ (killSession st s.user_id s.thread_id).sessions :=
                hmem
              rwa [hk] at this)
          · intro s0 hs0
            unfold killSession
            rw [hs0]

/-- A live session about to time out. -/
def w5s : Session :=
  { pid := 9, returncode := none, session_id := some "sid",
    working_directory := "/w", user_id := 1, thread_id := none,
    context_tokens_used := 0, context_tokens_max := 0, total_cost := 0,
    message_count := 0 }

/-- A directory holding only `w5s`. -/
def w5st : MgrState :=
  { sessions := [((1, none), w5s)], nextPid := 10, killed := [] }

/-- Concrete instance: a timed-out exchange leaves the key unregistered and
its pid killed. -/
theorem c5_witness :
    assocFind (readResponse w5st w5s [ReadItem.readTimeout]).2.sessions
        (1, none) = none
      ∧ (readResponse w5st w5s [ReadItem.readTimeout]).2.killed = [9] := by
  have h := c5_timeout_evicts w5st w5s [ReadItem.readTimeout]
    (readResponse w5st w5s [ReadItem.readTimeout]).2 (by decide)
  exact ⟨h.1, h.2.2.2 w5s (by decide)⟩

/-- Helper: after `assocSet`, the key maps to the new value. -/
theorem assocFind_assocSet_self {α β : Type} [DecidableEq α]
    (l : List (α × β)) (k : α) (v : β) :
    assocFind (assocSet l k v) k = some v := by
  induction l with
  | nil => simp [assocSet, assocFind]
  | cons kv rest ih =>
      by_cases h : kv.1 = k
      · simp [assocSet, assocFind, h]
      · simp [assocSet, assocFind, h, ih]

/-- Claim C6's premise "a desired protocol session id is given and differs"
is refuted at the empty string: `c6s` is a live entry with session id
`"abc"`, the caller supplies the desired id `""` (given, and different), yet
the code's truthiness test skips the comparison and returns the existing
entry unchanged — no kill, no replacement. -/
def c6s : Session :=
  { pid := 0, returncode := none, session_id := some "abc",
    working_directory := "/w", user_id := 1, thread_id := none,
    context_tokens_used := 0, context_tokens_max := 0, total_cost := 0,
    message_count := 0 }

/-- A directory holding only `c6s`. -/
def c6st : MgrState :=
  { sessions := [((1, none), c6s)], nextPid := 1, killed := [] }

/-- Claim C6 is false as stated: with a given desired session id (`some ""`)
that differs from the entry's (`some "abc"`), `get_or_create_session`
returns the existing live entry unchanged instead of killing and replacing
it, because Python's `session_id and ...` treats the empty string as not
given. -/
theorem c6_counterexample :
    getOrCreate c6st 1 "/w" (some "") none = (c6s, c6st)
      ∧ (some "" : Option String) ≠ c6s.session_id
      ∧ c6s.returncode = none
      ∧ c6s.working_directory = "/w" := by
  decide

/-- Claim C6 as amended: for a key with a live entry, a differing working
directory, or a desired session id that is given non-empty and differs
(Python treats an empty-string desired id as not given), kills the old
process and registers a fresh one bound to the requested directory and id;
otherwise the existing entry is returned with no state change; a dead entry
is removed and replaced by a fresh session, never reused and with nothing
killed. -/
theorem c6_get_or_create_cases (st : MgrState) (u : ℕ) (wd : String)
    (sid : Option String) (t : Option ℕ) (s : Session)
    (hs : assocFind st.sessions (u, t) = some s)
    (hfresh : s.pid < st.nextPid) :
    (s.returncode = none → s.working_directory = wd →
        sidWantsDifferent sid s.session_id = false →
        getOrCreate st u wd sid t = (s, st))
    ∧ (s.returncode = none →
        (s.working_directory ≠ wd ∨ sidWantsDifferent sid s.session_id = true) →
        ((getOrCreate st u wd sid t).2.killed = s.pid :: st.killed
          ∧ (getOrCreate st u wd sid t).1.pid = st.nextPid
          ∧ (getOrCreate st u wd sid t).1.working_directory = wd
          ∧ (getOrCreate st u wd sid t).1.session_id = sid
          ∧ assocFind (getOrCreate st u wd sid t).2.sessions (u, t)
              = some (getOrCreate st u wd sid t).1
          ∧ (getOrCreate st u wd sid t).1 ≠ s))
    ∧ (s.returncode ≠ none →
        ((getOrCreate st u wd sid t).2.killed = st.killed
          ∧ (getOrCreate st u wd sid t).1.pid = st.nextPid
          ∧ (getOrCreate st u wd sid t).1.working_directory = wd
          ∧ (getOrCreate st u wd sid t).1.session_id = sid
          ∧ assocFind (getOrCreate st u wd sid t).2.sessions (u, t)
              = some (getOrCreate st u wd sid t).1
          ∧ (getOrCreate st u wd sid t).1 ≠ s)) := by
  refine ⟨fun h1 h2 h3 => ?_, fun h1 h2 => ?_, fun h1 => ?_⟩
  · simp only [getOrCreate, hs]
    rw [if_pos h1, if_neg (by simp [h2]), if_neg (by simp [h3])]
  · have hred : getOrCreate st u wd sid t
        = createAndRegister (killSession st u t) u wd sid t := by
      simp only [getOrCreate, hs]
      rw [if_pos h1]
      rcases h2 with h2 | h2
      · rw [if_pos h2]
      · by_cases hwd : s.working_directory ≠ wd
        · rw [if_pos hwd]
        · rw [if_neg hwd, if_pos h2]
    have hkill : (killSession st u t).killed = s.pid :: st.killed := by
      unfold killSession
      rw [hs]
    have hnp : (killSession st u t).nextPid = st.nextPid := by
      unfold killSession
      rw [hs]
    rw [hred]
    refine ⟨by simp [createAndRegister, hkill], ?_, rfl, rfl,
      assocFind_assocSet_self _ _ _, ?_⟩
    · show (killSession st u t).nextPid = st.nextPid
      exact hnp
    · intro he
      have hp : (createAndRegister (killSession st u t) u wd sid t).1.pid
          = s.pid := congrArg Session.pid he
      have hp2 : (killSession st u t).nextPid = s.pid := hp
      rw [hnp] at hp2
      omega
  · have hred : getOrCreate st u wd sid t
        = createAndRegister
            { st with sessions := assocRemove st.sessions (u, t) }
            u wd sid t := by
      simp only [getOrCreate, hs]
      rw [if_neg h1]
    rw [hred]
    refine ⟨rfl, rfl, rfl, rfl, assocFind_assocSet_self _ _ _, ?_⟩
    intro he
    have hp : (createAndRegister
        { st with sessions := assocRemove st.sessions (u, t) }
        u wd sid t).1.pid = s.pid := congrArg Session.pid he
    have hp2 : st.nextPid = s.pid := hp
    omega

/-- A live session registered under `(2, some 5)` in directory `/old`. -/
def w6s : Session :=
  { pid := 4, returncode := none, session_id := some "sid",
    working_directory := "/old", user_id := 2, thread_id := some 5,
    context_tokens_used := 0, context_tokens_max := 0, total_cost := 0,
    message_count := 0 }

/-- A directory holding only `w6s`. -/
def w6st : MgrState :=
  { sessions := [((2, some 5), w6s)], nextPid := 7, killed := [] }

/-- Concrete instance of the amended contract: requesting a different
working directory kills the old process (pid 4) and registers a fresh one
(pid 7). -/
theorem c6_witness :
    (getOrCreate w6st 2 "/new" none (some 5)).2.killed = [4]
      ∧ (getOrCreate w6st 2 "/new" none (some 5)).1.pid = 7 := by
  have h := c6_get_or_create_cases w6st 2 "/new" none (some 5) w6s
    (by decide) (by decide)
  have h2 := h.2.1 (by decide) (Or.inl (by decide))
  exact ⟨h2.1, h2.2.1⟩

end TgClaude
